import Mathlib

/-!
Verification of the bempp operator-algebra and blocked-discretization engine.

The dense materialization of a discrete operator (`asMatrix` in the C++
sources) is modelled by `Mat`: a shape together with a total entry function;
only the entries with `r < rows` and `c < cols` are meaningful, and
`matEq` compares two materializations on exactly that rectangle.

Scalars are modelled by `ℚ` (exact arithmetic standing in for the
floating-point result type), so every "within 10·machineEpsilon" test of the
source becomes an exact equality here.
-/

namespace Bempp

/-- A dense rows×cols array: the result of materializing a discrete operator
(`DiscreteBoundaryOperator::asMatrix` in the C++ sources). Entries outside
the rectangle are junk. -/
structure Mat where
  rows : Nat
  cols : Nat
  entry : Nat → Nat → ℚ

/-- Equality of materializations: same shape and the same entries inside the
rectangle. -/
def matEq (A B : Mat) : Prop :=
  A.rows = B.rows ∧ A.cols = B.cols ∧
    ∀ r < A.rows, ∀ c < A.cols, A.entry r c = B.entry r c

/-- Elementwise sum of two dense arrays (the shape is taken from the first
operand; the contract requires identical shapes). -/
def addMat (A B : Mat) : Mat :=
  ⟨A.rows, A.cols, fun r c => A.entry r c + B.entry r c⟩

/-- Multiplication of a dense array by a scalar. -/
def smulMat (alpha : ℚ) (A : Mat) : Mat :=
  ⟨A.rows, A.cols, fun r c => alpha * A.entry r c⟩

/-- The all-zero dense array of a given shape. -/
def zeroMat (m n : Nat) : Mat := ⟨m, n, fun _ _ => 0⟩

/-- Vertical concatenation: `A` stacked on top of `B` (the spec's
`verticalConcat`; the tests build it with `eigenJoinCols`/`arma::join_cols`). -/
def vconcat (A B : Mat) : Mat :=
  ⟨A.rows + B.rows, A.cols,
    fun r c => if r < A.rows then A.entry r c else B.entry (r - A.rows) c⟩

/-- Matrix-vector product of the materialized operator with a vector given as
a total function (only the first `cols` components are read). -/
def matVec (A : Mat) (x : Nat → ℚ) (r : Nat) : ℚ :=
  ∑ c ∈ Finset.range A.cols, A.entry r c * x c

/-- Matrix-matrix product, summing over the first operand's column count. -/
def matMul (A B : Mat) : Mat :=
  ⟨A.rows, B.cols, fun r c => ∑ k ∈ Finset.range A.cols, A.entry r k * B.entry k c⟩

/-- Transpose of a dense array. -/
def transposeMat (A : Mat) : Mat := ⟨A.cols, A.rows, fun r c => A.entry c r⟩

/-- The n×n permutation matrix of an index map `s`: row `r` has its 1 in
column `s r`. -/
def permMat (n : Nat) (s : Nat → Nat) : Mat :=
  ⟨n, n, fun r c => if s r = c then 1 else 0⟩

/-- Entry permutation of a dense array: row indices through `sr`, column
indices through `sc`. -/
def permuteMat (sr sc : Nat → Nat) (A : Mat) : Mat :=
  ⟨A.rows, A.cols, fun r c => A.entry (sr r) (sc c)⟩

/-- Given the list of block sizes along one axis, map a global index to the
pair (block index, local index within that block): the inverse of the spec's
prefix-sum offsets. Returns `none` past the end. -/
def locate : List Nat → Nat → Option (Nat × Nat)
  | [], _ => none
  | n :: rest, r =>
    if r < n then some (0, r)
    else
      match locate rest (r - n) with
      | some (i, ri) => some (i + 1, ri)
      | none => none

/-- Modelled from the spec: `BlockedOperatorStructure` (its C++
implementation, `blocked_operator_structure.{hpp,cpp}`, is not in the source
tree; only its tests are). A sparse 2-D table of already-discretized blocks,
together with the per-block-row dual-to-range DOF counts and the
per-block-column domain DOF counts; `block i j = none` is an empty (implicit
zero) block. -/
structure BlockedOperatorStructure where
  rowCounts : List Nat
  colCounts : List Nat
  block : Nat → Nat → Option Mat

/-- Modelled from the spec: the entry of the stacked global operator at a
global (row, column) position. Per spec §4.3 steps 2-3, block (i,j) is placed
at the prefix-sum offsets (rowOffset i, colOffset j); `locate` recovers the
block and local indices from a global index, and empty entries contribute
zero. -/
def blockEntry (S : BlockedOperatorStructure) (r c : Nat) : ℚ :=
  match locate S.rowCounts r, locate S.colCounts c with
  | some (i, ri), some (j, cj) =>
    match S.block i j with
    | some B => B.entry ri cj
    | none => 0
  | _, _ => 0

/-- Modelled from the spec: the materialization of
`BlockedBoundaryOperator::weakForm()` under the stacked layout (the C++
implementation, `blocked_boundary_operator.{hpp,cpp}`, is not in the source
tree). Shape = (sum of row DOF counts, sum of column DOF counts); each block
sits at its prefix-sum offsets and empty blocks act as zeros. -/
def weakFormBlocked (S : BlockedOperatorStructure) : Mat :=
  ⟨S.rowCounts.sum, S.colCounts.sum, blockEntry S⟩

/-- The same structure with every empty block explicitly populated by the
zero-valued operator of the shape implied by its row and column spaces
(spec's words, the comparison side of the zero-block claim). -/
def fillZeros (S : BlockedOperatorStructure) : BlockedOperatorStructure :=
  { S with
    block := fun i j =>
      match S.block i j with
      | some B => some B
      | none => some (zeroMat (S.rowCounts.getD i 0) (S.colCounts.getD j 0)) }

/-- Modelled from the spec: the interleaved-layout global operator (the C++
`asDiscreteAcaBoundaryOperator(..., interleave)` implementation is not in the
source tree). Per spec §4.3 step 4, interleaving regroups the global DOFs by
a cluster key, i.e. it conjugates the stacked operator by the fixed
permutation produced by that regrouping: row indices through `sr`, column
indices through `sc`. -/
def interleavedWeakForm (S : BlockedOperatorStructure) (sr sc : Nat → Nat) : Mat :=
  permuteMat sr sc (weakFormBlocked S)

/-- Modelled from the spec (§4.2): the `DiscreteBoundaryOperator` value
produced by discretization (its implementation is not in the source tree).
Dense arrays, scalar multiples, and the lazy Composite-Sum variant; the
sparse and hierarchical variants materialize to dense arrays as well and are
subsumed by `dense` for the claims below. -/
inductive DiscreteBoundaryOperator where
  | dense (rows cols : Nat) (entry : Nat → Nat → ℚ)
  | scaledOp (alpha : ℚ) (op : DiscreteBoundaryOperator)
  | sumOp (op1 op2 : DiscreteBoundaryOperator)

/-- Materialization (`asMatrix`) of a discrete operator: a scaled operator
scales every entry, a composite sum materializes to the elementwise sum of
its operands' dense forms (spec §4.2). -/
def DiscreteBoundaryOperator.asMatrix : DiscreteBoundaryOperator → Mat
  | .dense r c e => ⟨r, c, e⟩
  | .scaledOp a op => smulMat a op.asMatrix
  | .sumOp o1 o2 => addMat o1.asMatrix o2.asMatrix

/-- The symbolic boundary-operator tree of
`src/python/bempp/assembly/boundary_operator.mako.pyx`: `general` is a
`GeneralBoundaryOperator` leaf (whose weak form is delegated to the external
assembler and whose label comes from the C++ side), `scaled` is
`_ScaledBoundaryOperator`, `sum` is `_SumBoundaryOperator`. -/
inductive BoundaryOperator where
  | general (weak : DiscreteBoundaryOperator) (lbl : String)
  | scaled (op : BoundaryOperator) (alpha : ℚ)
  | sum (op1 op2 : BoundaryOperator)

/-- `weak_form` of the pyx source: a leaf returns its assembled operator;
`_ScaledBoundaryOperator.weak_form` returns `self._alpha*self._op.weak_form()`;
`_SumBoundaryOperator.weak_form` returns
`self._op1.weak_form()+self._op2.weak_form()`. -/
def BoundaryOperator.weak_form : BoundaryOperator → DiscreteBoundaryOperator
  | .general w _ => w
  | .scaled op a => .scaledOp a op.weak_form
  | .sum o1 o2 => .sumOp o1.weak_form o2.weak_form

/-- The `label` property of the pyx source. A `GeneralBoundaryOperator`
decodes the C++ label. `_SumBoundaryOperator.__init__` sets
`self._label = ("("+op1.label+"+"+op2.label+")")`. `_ScaledBoundaryOperator`
declares `cdef string _label` and a property decoding it but its `__init__`
never assigns `_label`, so the default-constructed empty string is returned. -/
def BoundaryOperator.label : BoundaryOperator → String
  | .general _ lbl => lbl
  | .scaled _ _ => ""
  | .sum o1 o2 => "(" ++ o1.label ++ "+" ++ o2.label ++ ")"

/-- The state of a `GeneralBoundaryOperator`'s underlying C++ object as seen
by the pyx accessors: `valid_domain()/valid_range()/valid_dual_to_range()`
flags and the corresponding space handles (spaces abstracted to opaque
identifiers). -/
structure GeneralBoundaryOperatorImpl where
  validDomain : Bool
  domainSpace : Nat
  validRange : Bool
  rangeSpace : Nat
  validDualToRange : Bool
  dualToRangeSpace : Nat

/-- The pyx `domain` property: `if not self.impl_.valid_domain(): return
None`, otherwise a `Space` wrapping `self.impl_.domain()`. -/
def GeneralBoundaryOperatorImpl.domain (op : GeneralBoundaryOperatorImpl) : Option Nat :=
  if !op.validDomain then none else some op.domainSpace

/-- The pyx `range` property, same pattern as `domain`. -/
def GeneralBoundaryOperatorImpl.range (op : GeneralBoundaryOperatorImpl) : Option Nat :=
  if !op.validRange then none else some op.rangeSpace

/-- The pyx `dual_to_range` property, same pattern as `domain`. -/
def GeneralBoundaryOperatorImpl.dual_to_range (op : GeneralBoundaryOperatorImpl) : Option Nat :=
  if !op.validDualToRange then none else some op.dualToRangeSpace

/-- The state of a `GridFunction` relevant to `setCoefficients` and
`setProjections` (`src/lib/assembly/grid_function.cpp`): the context and the
primal/dual spaces (abstracted to an opaque tag and their global DOF counts)
plus the two optional cached vectors `m_coefficients` and `m_projections`
(a null `shared_ptr` is `none`). -/
structure GridFunction where
  context : Nat
  spaceDofCount : Nat
  dualSpaceDofCount : Nat
  coefficients : Option (List ℚ)
  projections : Option (List ℚ)

/-- `GridFunction::setCoefficients`: if the vector length differs from the
primal space's global DOF count it throws `std::invalid_argument` before any
assignment (the pair's first component is the unchanged object, the second the
raised message); otherwise it stores the new coefficients and resets
(`invalidates`) the projections vector. -/
def GridFunction.setCoefficients (g : GridFunction) (coeffs : List ℚ) :
    GridFunction × Option String :=
  if coeffs.length = g.spaceDofCount then
    ({ g with coefficients := some coeffs, projections := none }, none)
  else
    (g, some "GridFunction::setCoefficients(): dimension of the provided vector does not match the number of global DOFs in the primal space")

/-- `GridFunction::setProjections`: symmetric to `setCoefficients`, validated
against the dual space's global DOF count; on success it stores the new
projections and resets (`invalidates`) the coefficients vector. -/
def GridFunction.setProjections (g : GridFunction) (projects : List ℚ) :
    GridFunction × Option String :=
  if projects.length = g.dualSpaceDofCount then
    ({ g with projections := some projects, coefficients := none }, none)
  else
    (g, some "GridFunction::setProjections(): dimension of the provided vector does not match the number of global DOFs in the dual space")

/-- A grid-function value as consumed by the free scalar-algebra operators of
`grid_function.cpp` (both vectors read through the accessors; the lazy
computation of a missing vector via the mass matrix is an external
collaborator and the operators always construct a fully populated result). -/
structure GridFunctionValue where
  context : Nat
  spaceDofCount : Nat
  dualSpaceDofCount : Nat
  coefficients : List ℚ
  projections : List ℚ

/-- `operator*(GridFunction, scalar)`: a new grid function over the same
context and spaces with both vectors multiplied by the scalar. -/
def scalarMulGF (scalar : ℚ) (g : GridFunctionValue) : GridFunctionValue :=
  { g with
    coefficients := g.coefficients.map (fun x => scalar * x)
    projections := g.projections.map (fun x => scalar * x) }

/-- `operator/(GridFunction, scalar)` of `grid_function.cpp`: throws
`std::runtime_error("GridFunction::operator/(): Divide by zero")` when the
scalar equals exact zero, otherwise returns `(1/scalar) * g1`. -/
def scalarDivGF (g : GridFunctionValue) (scalar : ℚ) : Except String GridFunctionValue :=
  if scalar = 0 then Except.error "GridFunction::operator/(): Divide by zero"
  else Except.ok (scalarMulGF (1 / scalar) g)

/-- A concrete 12×12 block for the 12-DOF scenario of the single-block claim. -/
def block12 : Mat := ⟨12, 12, fun r c => (r : ℚ) + 2 * (c : ℚ)⟩

/-- A 1×1 structure holding only `block12` at position (0,0). -/
def structure12 : BlockedOperatorStructure :=
  ⟨[12], [12], fun i j => if i = 0 ∧ j = 0 then some block12 else none⟩

/-- A concrete 1×1 block for the stacking witness. -/
def blockA : Mat := ⟨1, 1, fun _ _ => 5⟩

/-- A concrete 2×1 block for the stacking witness. -/
def blockB : Mat := ⟨2, 1, fun r _ => (r : ℚ) + 7⟩

/-- A 2×1 structure stacking `blockA` over `blockB`. -/
def structureAB : BlockedOperatorStructure :=
  ⟨[1, 2], [1], fun i j =>
    if i = 0 ∧ j = 0 then some blockA
    else if i = 1 ∧ j = 0 then some blockB
    else none⟩

/-- The transposition of indices 0 and 1: a concrete cluster permutation for
the interleaving witness. -/
def swap01 (n : Nat) : Nat := if n = 0 then 1 else if n = 1 then 0 else n

/-- A concrete 2×2 block for the interleaving witness. -/
def block4 : Mat := ⟨2, 2, fun r c => 2 * (r : ℚ) + (c : ℚ) + 1⟩

/-- A 1×1 structure holding `block4`, of global shape 2×2. -/
def structure4 : BlockedOperatorStructure :=
  ⟨[2], [2], fun i j => if i = 0 ∧ j = 0 then some block4 else none⟩

/-- A concrete input vector for the interleaving witness. -/
def xq (n : Nat) : ℚ := (n : ℚ) + 1

/-- A concrete discrete operator backing the label counterexample leaves. -/
def d0 : DiscreteBoundaryOperator := .dense 1 1 (fun _ _ => 0)

/-- A concrete grid function (2 primal DOFs, 3 dual DOFs, both caches set)
for the setter witnesses. -/
def gf0 : GridFunction := ⟨9, 2, 3, some [1, 2], some [4, 5, 6]⟩

/-- A concrete grid-function value for the scalar-division witness. -/
def gfv0 : GridFunctionValue := ⟨9, 2, 3, [1, 2], [4, 5, 6]⟩

/-- A concrete operator state with an unset domain and valid range and
dual-to-range spaces, for the accessor witness. -/
def impl0 : GeneralBoundaryOperatorImpl := ⟨false, 3, true, 5, true, 7⟩

end Bempp

namespace Bempp

lemma locate_cons_lt {n : Nat} {rest : List Nat} {r : Nat} (h : r < n) :
    locate (n :: rest) r = some (0, r) := by
  simp [locate, h]

lemma locate_singleton {n r : Nat} (h : r < n) : locate [n] r = some (0, r) :=
  locate_cons_lt h

lemma locate_cons_snd {a b r : Nat} (h1 : ¬ r < a) (h2 : r - a < b) :
    locate [a, b] r = some (1, r - a) := by
  simp [locate, h1, h2]

/-- C1: a blocked operator structure whose row spaces are the single row
space of `B` and whose column spaces are the single column space of `B`,
populated with `B` at position (0,0), has a `weakForm()` materializing to
exactly `B`'s own materialization — shape included. -/
theorem blocked_weak_form_single_block (B : Mat) (S : BlockedOperatorStructure)
    (hr : S.rowCounts = [B.rows]) (hc : S.colCounts = [B.cols])
    (hb : S.block 0 0 = some B) :
    matEq (weakFormBlocked S) B := by
  have hR : (weakFormBlocked S).rows = B.rows := by simp [weakFormBlocked, hr]
  have hC : (weakFormBlocked S).cols = B.cols := by simp [weakFormBlocked, hc]
  refine ⟨hR, hC, ?_⟩
  intro r hrlt c hclt
  rw [hR] at hrlt
  rw [hC] at hclt
  show blockEntry S r c = B.entry r c
  unfold blockEntry
  rw [hr, hc, locate_singleton hrlt, locate_singleton hclt]
  simp [hb]

/-- C1 witness: the 12-DOF scenario; the structure with a single 12×12 block
materializes to that block, so the global operator has shape (12,12). -/
theorem blocked_weak_form_single_block_witness :
    matEq (weakFormBlocked structure12) block12 :=
  blocked_weak_form_single_block block12 structure12 rfl rfl rfl

/-- C2: a 2×1 structure whose two blocks `A` (row 0) and `B` (row 1) share
one column space materializes to the vertical concatenation of `A`'s
materialization on top of `B`'s. -/
theorem blocked_weak_form_two_by_one_stacking (A B : Mat)
    (S : BlockedOperatorStructure)
    (hr : S.rowCounts = [A.rows, B.rows]) (hc : S.colCounts = [A.cols])
    (hcol : B.cols = A.cols)
    (h0 : S.block 0 0 = some A) (h1 : S.block 1 0 = some B) :
    matEq (weakFormBlocked S) (vconcat A B) := by
  have hR : (weakFormBlocked S).rows = A.rows + B.rows := by
    simp [weakFormBlocked, hr]
  have hC : (weakFormBlocked S).cols = A.cols := by simp [weakFormBlocked, hc]
  refine ⟨hR, hC, ?_⟩
  intro r hrlt c hclt
  rw [hR] at hrlt
  rw [hC] at hclt
  show blockEntry S r c = (vconcat A B).entry r c
  unfold blockEntry vconcat
  rw [hc, locate_singleton hclt, hr]
  by_cases hra : r < A.rows
  · rw [locate_cons_lt hra]
    simp [h0, hra]
  · have hrb : r - A.rows < B.rows := by omega
    rw [locate_cons_snd hra hrb]
    simp [h1, hra]

/-- C2 witness: a concrete 1×1 block stacked over a concrete 2×1 block. -/
theorem blocked_weak_form_two_by_one_stacking_witness :
    matEq (weakFormBlocked structureAB) (vconcat blockA blockB) :=
  blocked_weak_form_two_by_one_stacking blockA blockB structureAB rfl rfl rfl rfl rfl

/-- C3: empty blocks behave as all-zero blocks of the implied shape — the
structure with every empty block explicitly populated by a zero-valued
operator materializes identically — and `weakForm()` is total with the
implied shape even when whole rows or columns are empty. -/
theorem blocked_weak_form_empty_blocks_zero (S : BlockedOperatorStructure) :
    matEq (weakFormBlocked (fillZeros S)) (weakFormBlocked S) ∧
    (weakFormBlocked S).rows = S.rowCounts.sum ∧
    (weakFormBlocked S).cols = S.colCounts.sum := by
  refine ⟨⟨rfl, rfl, ?_⟩, rfl, rfl⟩
  intro r _ c _
  show blockEntry (fillZeros S) r c = blockEntry S r c
  unfold blockEntry fillZeros
  rcases hlr : locate S.rowCounts r with _ | ⟨i, ri⟩
  · simp
  · rcases hlc : locate S.colCounts c with _ | ⟨j, cj⟩
    · simp
    · rcases hbl : S.block i j with _ | B
      · simp [hbl, zeroMat]
      · simp [hbl]

lemma permMat_mul_entry (n : Nat) (s : Nat → Nat) (A : Mat) (r c : Nat)
    (h : s r < n) :
    (matMul (permMat n s) A).entry r c = A.entry (s r) c := by
  show (∑ k ∈ Finset.range n, (if s r = k then (1 : ℚ) else 0) * A.entry k c)
      = A.entry (s r) c
  simp only [ite_mul, one_mul, zero_mul, Finset.sum_ite_eq, Finset.mem_range]
  exact if_pos h

lemma mul_permMat_transpose_entry (n : Nat) (s : Nat → Nat) (X : Mat)
    (r c : Nat) (h : s c < n) (hX : X.cols = n) :
    (matMul X (transposeMat (permMat n s))).entry r c = X.entry r (s c) := by
  show (∑ k ∈ Finset.range X.cols, X.entry r k * (if s c = k then (1 : ℚ) else 0))
      = X.entry r (s c)
  rw [hX]
  simp only [mul_ite, mul_one, mul_zero, Finset.sum_ite_eq, Finset.mem_range]
  exact if_pos h

/-- C4: the interleaved-layout global operator is the stacked one conjugated
by the fixed cluster permutation: it equals the matrix product of the row
permutation matrix, the stacked operator and the transposed column
permutation matrix exactly, and applying it to the correspondingly permuted
input reproduces the stacked operator's output at the permuted row. -/
theorem blocked_weak_form_interleaved_permutation
    (S : BlockedOperatorStructure) (sr sc tc : Nat → Nat) (x : Nat → ℚ) (r : Nat)
    (hsr : ∀ i < S.rowCounts.sum, sr i < S.rowCounts.sum)
    (hsc : ∀ j < S.colCounts.sum, sc j < S.colCounts.sum)
    (htc : ∀ j < S.colCounts.sum, tc j < S.colCounts.sum)
    (hst : ∀ j < S.colCounts.sum, tc (sc j) = j)
    (hts : ∀ j < S.colCounts.sum, sc (tc j) = j)
    (hr : r < S.rowCounts.sum) :
    matEq (interleavedWeakForm S sr sc)
      (matMul (matMul (permMat S.rowCounts.sum sr) (weakFormBlocked S))
        (transposeMat (permMat S.colCounts.sum sc))) ∧
    matVec (interleavedWeakForm S sr sc) (fun c => x (sc c)) r
      = matVec (weakFormBlocked S) x (sr r) := by
  constructor
  · refine ⟨rfl, rfl, ?_⟩
    intro r' hr' c' hc'
    have hr2 : r' < S.rowCounts.sum := hr'
    have hc2 : c' < S.colCounts.sum := hc'
    have houter :
        (matMul (matMul (permMat S.rowCounts.sum sr) (weakFormBlocked S))
          (transposeMat (permMat S.colCounts.sum sc))).entry r' c'
        = (matMul (permMat S.rowCounts.sum sr) (weakFormBlocked S)).entry r' (sc c') :=
      mul_permMat_transpose_entry S.colCounts.sum sc _ r' c' (hsc c' hc2) rfl
    rw [houter, permMat_mul_entry S.rowCounts.sum sr _ r' (sc c') (hsr r' hr2)]
    rfl
  · show (∑ c ∈ Finset.range S.colCounts.sum,
        (weakFormBlocked S).entry (sr r) (sc c) * x (sc c))
      = ∑ c ∈ Finset.range S.colCounts.sum, (weakFormBlocked S).entry (sr r) c * x c
    refine Finset.sum_nbij' sc tc ?_ ?_ ?_ ?_ ?_
    · intro a ha
      exact Finset.mem_range.mpr (hsc a (Finset.mem_range.mp ha))
    · intro a ha
      exact Finset.mem_range.mpr (htc a (Finset.mem_range.mp ha))
    · intro a ha
      exact hst a (Finset.mem_range.mp ha)
    · intro a ha
      exact hts a (Finset.mem_range.mp ha)
    · intro a _
      rfl

/-- C4 witness: a 2×2 single-block structure interleaved by the transposition
of the two global DOFs. -/
theorem blocked_weak_form_interleaved_permutation_witness :
    matEq (interleavedWeakForm structure4 swap01 swap01)
      (matMul (matMul (permMat structure4.rowCounts.sum swap01)
          (weakFormBlocked structure4))
        (transposeMat (permMat structure4.colCounts.sum swap01))) ∧
    matVec (interleavedWeakForm structure4 swap01 swap01) (fun c => xq (swap01 c)) 0
      = matVec (weakFormBlocked structure4) xq (swap01 0) :=
  blocked_weak_form_interleaved_permutation structure4 swap01 swap01 swap01 xq 0
    (by decide) (by decide) (by decide) (by decide) (by decide) (by decide)

/-- C5: the weak form of a sum node materializes to exactly the elementwise
sum of the two operands' weak-form materializations (exact equality in the
rational model, hence within any relative tolerance). -/
theorem sum_weak_form_materializes_to_sum (op1 op2 : BoundaryOperator) :
    matEq (BoundaryOperator.weak_form (.sum op1 op2)).asMatrix
      (addMat op1.weak_form.asMatrix op2.weak_form.asMatrix) :=
  ⟨rfl, rfl, fun _ _ _ _ => rfl⟩

/-- C6 counterexample: a Scaled node's label is the empty string and ignores
its child's label entirely — two Scaled nodes over leaves labelled "A" and
"B" share the label "", although the leaf labels are exposed as stated. -/
theorem scaled_label_ignores_child_label :
    (BoundaryOperator.scaled (.general d0 "A") 2).label = "" ∧
    (BoundaryOperator.scaled (.general d0 "B") 2).label = "" ∧
    (BoundaryOperator.general d0 "A").label = "A" :=
  ⟨rfl, rfl, rfl⟩

/-- C6 (amended): a Leaf exposes its own label and a Sum node's label is
"(" + left.label + "+" + right.label + ")", but a Scaled node's label is
always the empty string (its label field is never assigned), not a
composition of its child's label. -/
theorem label_compositional_amended (a b op : BoundaryOperator) (alpha : ℚ)
    (d : DiscreteBoundaryOperator) (s : String) :
    (BoundaryOperator.sum a b).label = "(" ++ a.label ++ "+" ++ b.label ++ ")" ∧
    (BoundaryOperator.scaled op alpha).label = "" ∧
    (BoundaryOperator.general d s).label = s :=
  ⟨rfl, rfl, rfl⟩

/-- C7: with a correctly sized vector, `setCoefficients` stores the new
coefficients and clears the cached projections, `setProjections` stores the
new projections and clears the cached coefficients, and neither setter
touches any other field of the grid function. -/
theorem set_coefficients_and_projections_invalidate_caches
    (g : GridFunction) (v w : List ℚ)
    (hv : v.length = g.spaceDofCount) (hw : w.length = g.dualSpaceDofCount) :
    g.setCoefficients v =
      ({ g with coefficients := some v, projections := none }, none) ∧
    g.setProjections w =
      ({ g with projections := some w, coefficients := none }, none) := by
  constructor
  · unfold GridFunction.setCoefficients
    rw [if_pos hv]
  · unfold GridFunction.setProjections
    rw [if_pos hw]

/-- C7 witness: concrete setters on a grid function with both caches set. -/
theorem set_coefficients_and_projections_invalidate_caches_witness :
    gf0.setCoefficients [10, 11] =
      ({ gf0 with coefficients := some [10, 11], projections := none }, none) ∧
    gf0.setProjections [20, 21, 22] =
      ({ gf0 with projections := some [20, 21, 22], coefficients := none }, none) :=
  set_coefficients_and_projections_invalidate_caches gf0 [10, 11] [20, 21, 22] rfl rfl

/-- C8: dividing a grid function by a scalar raises the divide-by-zero error
precisely when the scalar equals exact zero, and for every nonzero scalar it
succeeds and equals scaling by 1/s. -/
theorem grid_function_scalar_division (g : GridFunctionValue) (s : ℚ) :
    (scalarDivGF g s = Except.error "GridFunction::operator/(): Divide by zero" ↔ s = 0) ∧
    (s ≠ 0 → scalarDivGF g s = Except.ok (scalarMulGF (1 / s) g)) := by
  by_cases h : s = 0
  · subst h
    refine ⟨⟨fun _ => rfl, fun _ => ?_⟩, fun hne => absurd rfl hne⟩
    unfold scalarDivGF
    rw [if_pos rfl]
  · refine ⟨⟨fun he => ?_, fun h0 => absurd h0 h⟩, fun _ => ?_⟩
    · exfalso
      unfold scalarDivGF at he
      rw [if_neg h] at he
      exact Except.noConfusion he
    · unfold scalarDivGF
      rw [if_neg h]

/-- C8 witness: division of a concrete grid function by 0 raises, and
division by 2 equals scaling by 1/2. -/
theorem grid_function_scalar_division_witness :
    scalarDivGF gfv0 0 = Except.error "GridFunction::operator/(): Divide by zero" ∧
    scalarDivGF gfv0 2 = Except.ok (scalarMulGF (1 / 2) gfv0) :=
  ⟨(grid_function_scalar_division gfv0 0).1.mpr rfl,
   (grid_function_scalar_division gfv0 2).2 (by norm_num)⟩

/-- C9: each of the `domain`, `range` and `dual_to_range` accessors returns
`None` exactly when the corresponding space is unset/invalid, and the wrapped
space when it is valid; no error is raised in either case. -/
theorem boundary_operator_space_accessors (op : GeneralBoundaryOperatorImpl) :
    (op.validDomain = false → op.domain = none) ∧
    (op.validDomain = true → op.domain = some op.domainSpace) ∧
    (op.validRange = false → op.range = none) ∧
    (op.validRange = true → op.range = some op.rangeSpace) ∧
    (op.validDualToRange = false → op.dual_to_range = none) ∧
    (op.validDualToRange = true → op.dual_to_range = some op.dualToRangeSpace) := by
  refine ⟨fun h => ?_, fun h => ?_, fun h => ?_, fun h => ?_, fun h => ?_, fun h => ?_⟩ <;>
    simp [GeneralBoundaryOperatorImpl.domain, GeneralBoundaryOperatorImpl.range,
      GeneralBoundaryOperatorImpl.dual_to_range, h]

/-- C9 witness: an operator with an unset domain but valid range and
dual-to-range spaces. -/
theorem boundary_operator_space_accessors_witness :
    impl0.domain = none ∧ impl0.range = some 5 ∧ impl0.dual_to_range = some 7 :=
  ⟨(boundary_operator_space_accessors impl0).1 rfl,
   (boundary_operator_space_accessors impl0).2.2.2.1 rfl,
   (boundary_operator_space_accessors impl0).2.2.2.2.2 rfl⟩

/-- C10: with a wrongly sized vector, each setter raises the
invalid-argument error and returns with the grid function unchanged — in
particular both cached vectors are left exactly as they were. -/
theorem setters_atomic_on_length_mismatch (g : GridFunction) (v w : List ℚ)
    (hv : v.length ≠ g.spaceDofCount) (hw : w.length ≠ g.dualSpaceDofCount) :
    g.setCoefficients v =
      (g, some "GridFunction::setCoefficients(): dimension of the provided vector does not match the number of global DOFs in the primal space") ∧
    g.setProjections w =
      (g, some "GridFunction::setProjections(): dimension of the provided vector does not match the number of global DOFs in the dual space") := by
  constructor
  · unfold GridFunction.setCoefficients
    rw [if_neg hv]
  · unfold GridFunction.setProjections
    rw [if_neg hw]

/-- C10 witness: wrongly sized vectors leave the concrete grid function, its
caches included, unchanged. -/
theorem setters_atomic_on_length_mismatch_witness :
    gf0.setCoefficients [1] =
      (gf0, some "GridFunction::setCoefficients(): dimension of the provided vector does not match the number of global DOFs in the primal space") ∧
    gf0.setProjections [1] =
      (gf0, some "GridFunction::setProjections(): dimension of the provided vector does not match the number of global DOFs in the dual space") :=
  setters_atomic_on_length_mismatch gf0 [1] [1] (by decide) (by decide)

end Bempp
